import Mathlib

/-
Verification development for the openFrameworks base-type contract header
(libs/openFrameworks/types/ofBaseTypes.h): the ofBaseDraws drawing overloads,
the ofBaseRenderer default dispatch and matrix-stack discipline, and the
ofBaseVideoPlayer transport state machine.

Modelling conventions: C++ float quantities are modelled as rationals;
pointers that may be null are modelled as Option; a virtual method with a
default body in the header is transcribed from that body; a pure-virtual
method is an abstract field of the object model, or, where its semantics is
needed, is modelled from the specification (such definitions say so in their
doc comment). Method calls that only emit backend drawing commands are
modelled as traces (lists of call events).
-/

/-- Rational model of ofVec3f / ofPoint: a 3d point with float coordinates. -/
structure OfPoint where
  x : ℚ
  y : ℚ
  z : ℚ
deriving DecidableEq

/-- Rational model of ofRectangle: position and size. -/
structure OfRectangle where
  x : ℚ
  y : ℚ
  width : ℚ
  height : ℚ
deriving DecidableEq

/-- Backend drawing event emitted by a concrete override of the pure-virtual
ofBaseDraws::draw(float x, float y). -/
inductive DrawEvent where
  | primitive (x y : ℚ)
deriving DecidableEq

/-- Object model of an ofBaseDraws subclass that keeps the inherited default
method bodies: the pure-virtual members getWidth, getHeight and
draw(float, float) are abstract fields supplied by the concrete subclass. -/
structure OfBaseDrawsObj where
  widthVal : ℚ
  heightVal : ℚ
  drawAtImpl : ℚ → ℚ → List DrawEvent

/-- Model of ofBaseDraws::getWidth, pure virtual: the subclass supplies it. -/
def getWidth (o : OfBaseDrawsObj) : ℚ := o.widthVal

/-- Model of ofBaseDraws::getHeight, pure virtual: the subclass supplies it. -/
def getHeight (o : OfBaseDrawsObj) : ℚ := o.heightVal

/-- Model of ofBaseDraws::draw(float x, float y), pure virtual (header line 67):
virtual dispatch reaches the concrete subclass override. -/
def drawAt (o : OfBaseDrawsObj) (x y : ℚ) : List DrawEvent := o.drawAtImpl x y

/-- Model of the inherited default ofBaseDraws::draw(float x, float y, float w,
float h) (header lines 75-77). Its body is draw(x, y, getWidth(), getHeight()),
a four-float call which overload resolution sends back to this very overload,
so each unfolding of the body is another call to the same method with the last
two arguments replaced by getWidth() and getHeight(). The first argument is
fuel bounding the call depth; a result of none means the call did not return
within that depth. -/
def drawAtSize (o : OfBaseDrawsObj) : ℕ → ℚ → ℚ → ℚ → ℚ → Option (List DrawEvent)
  | 0, _, _, _, _ => none
  | fuel + 1, x, y, _, _ => drawAtSize o fuel x y (getWidth o) (getHeight o)

/-- Model of the inherited default ofBaseDraws::draw(const ofPoint&)
(header lines 84-86): body draw(point.x, point.y). -/
def drawAtPoint (o : OfBaseDrawsObj) (point : OfPoint) : List DrawEvent :=
  drawAt o point.x point.y

/-- Model of the inherited default ofBaseDraws::draw(const ofRectangle&)
(header lines 91-93): body draw(rect.x, rect.y, rect.width, rect.height),
which resolves to the four-float overload. -/
def drawInRect (o : OfBaseDrawsObj) (fuel : ℕ) (rect : OfRectangle) :
    Option (List DrawEvent) :=
  drawAtSize o fuel rect.x rect.y rect.width rect.height

/-- Model of the inherited default ofBaseDraws::draw(const ofPoint&, float w,
float h) (header lines 100-102): body draw(point.x, point.y, w, h), which
resolves to the four-float overload. -/
def drawAtPointSize (o : OfBaseDrawsObj) (fuel : ℕ) (point : OfPoint) (w h : ℚ) :
    Option (List DrawEvent) :=
  drawAtSize o fuel point.x point.y w h

/-- Model of ofPolyRenderMode. -/
inductive OfPolyRenderMode where
  | OF_MESH_POINTS
  | OF_MESH_WIREFRAME
  | OF_MESH_FILL
deriving DecidableEq

/-- Model of the ofMesh capabilities that the renderer's default mesh-draw
dispatch reads: usingColors(), usingTextures(), usingNormals(). -/
structure OfMesh where
  usingColors : Bool
  usingTextures : Bool
  usingNormals : Bool
deriving DecidableEq

/-- Opaque model of ofPath: identified shapes, contents irrelevant here. -/
structure OfPath where
  shapeId : ℕ
deriving DecidableEq

/-- Call event on an ofBaseRenderer, for call-trace models of the default
method bodies. -/
inductive RendererCall where
  | drawMeshFull (mesh : OfMesh) (renderType : OfPolyRenderMode)
      (useColors useTextures useNormals : Bool)
  | pushMatrixCall
  | popMatrixCall
  | translateCall (x y z : ℚ)
  | drawPathCall (shape : OfPath)
deriving DecidableEq

/-- Model of the default ofBaseRenderer::draw(const ofMesh&, ofPolyRenderMode)
(header lines 668-670): its body is the single statement
draw(mesh, renderType, mesh.usingColors(), mesh.usingTextures(),
mesh.usingNormals()); the trace records the calls the body makes. -/
def drawMesh (mesh : OfMesh) (renderType : OfPolyRenderMode) : List RendererCall :=
  [RendererCall.drawMeshFull mesh renderType
    mesh.usingColors mesh.usingTextures mesh.usingNormals]

/-- Claim C1: the inherited default ofBaseDraws::draw(x, y, w, h) is claimed to
terminate and render at position (x, y) with size w by h. It does not: the
body calls the same four-float overload again for every input, so the call
never returns no matter how much call depth (fuel) it is given, and the w and
h arguments are never consumed. -/
theorem drawAtSize_never_returns (o : OfBaseDrawsObj) (fuel : ℕ) (x y w h : ℚ) :
    drawAtSize o fuel x y w h = none := by
  induction fuel generalizing w h with
  | zero => rfl
  | succ n ih => simpa [drawAtSize] using ih (getWidth o) (getHeight o)

/-- Claim C6: each inherited ofBaseDraws convenience overload equals the
corresponding coordinate-wise overload: draw(point) equals
draw(point.x, point.y); draw(rect) equals
draw(rect.x, rect.y, rect.width, rect.height); draw(point, w, h) equals
draw(point.x, point.y, w, h). -/
theorem draw_convenience_overloads_eq (o : OfBaseDrawsObj) (fuel : ℕ)
    (point : OfPoint) (rect : OfRectangle) (w h : ℚ) :
    drawAtPoint o point = drawAt o point.x point.y ∧
    drawInRect o fuel rect = drawAtSize o fuel rect.x rect.y rect.width rect.height ∧
    drawAtPointSize o fuel point w h = drawAtSize o fuel point.x point.y w h :=
  ⟨rfl, rfl, rfl⟩

/-- Claim C2: the default ofBaseRenderer::draw(mesh, renderType) overload makes
exactly one call, namely to the fully-specified overload with the flag
arguments taken from the mesh's own usingColors(), usingTextures() and
usingNormals(), and does nothing else: its whole call trace is that single
call. -/
theorem drawMesh_forwards_once (mesh : OfMesh) (renderType : OfPolyRenderMode) :
    drawMesh mesh renderType =
      [RendererCall.drawMeshFull mesh renderType
        mesh.usingColors mesh.usingTextures mesh.usingNormals] ∧
    (drawMesh mesh renderType).length = 1 :=
  ⟨rfl, rfl⟩

/-- A 4 by 4 transform matrix over the rational model of float. -/
abbrev Mat4 := Matrix (Fin 4) (Fin 4) ℚ

/-- Homogeneous translation matrix by (x, y, z). -/
def translationMatrix (x y z : ℚ) : Mat4 :=
  !![1, 0, 0, x; 0, 1, 0, y; 0, 0, 1, z; 0, 0, 0, 1]

/-- Model of an ofStyle snapshot, for the renderer's style stack. -/
structure OfStyle where
  color : ℕ
  bFill : Bool
  lineWidth : ℚ
deriving DecidableEq

/-- Mutable state of an ofBaseRenderer for the currently selected matrix mode:
the current top-of-stack matrix, the saved matrices below it, and the other
stacked state (style and viewport stacks) that drawing must not disturb. -/
structure RendererState where
  currentMatrix : Mat4
  matrixStack : List Mat4
  styleStack : List OfStyle
  viewportStack : List OfRectangle

/-- Modelled from the spec: ofBaseRenderer::pushMatrix is pure virtual in the
header (line 857); section 3 of the spec fixes its semantics, push copies the
top of the matrix stack. -/
def pushMatrix (s : RendererState) : RendererState :=
  { s with matrixStack := s.currentMatrix :: s.matrixStack }

/-- Modelled from the spec: ofBaseRenderer::popMatrix is pure virtual in the
header (line 862); pop restores the last matrix saved by pushMatrix and
discards it from the stack. Popping an empty stack is a programming error the
spec requires implementations to reject; it never occurs in the bracketed
sequences considered here and is modelled as leaving the state unchanged. -/
def popMatrix (s : RendererState) : RendererState :=
  match s.matrixStack with
  | [] => s
  | m :: rest => { s with currentMatrix := m, matrixStack := rest }

/-- Modelled from the spec: ofBaseRenderer::translate is pure virtual in the
header (line 883); section 4.1 of the spec fixes its semantics, translate
composes onto the current top-of-stack matrix by right-multiplication. -/
def translateXYZ (x y z : ℚ) (s : RendererState) : RendererState :=
  { s with currentMatrix := s.currentMatrix * translationMatrix x y z }

/-- Modelled from the spec: ofBaseRenderer::draw(const ofPath&) is pure
virtual in the header (line 646) and const; per section 4.4 of the spec a
concrete draw overload emits backend primitive calls and mutates no renderer
state except through explicit push/pop pairs, so it is modelled as emitting a
trace event and leaving the state unchanged. -/
def drawPathConst (shape : OfPath) (s : RendererState) :
    RendererState × List RendererCall :=
  (s, [RendererCall.drawPathCall shape])

/-- Model of the inherited default ofBaseRenderer::draw(const ofPath&, float x,
float y) (header lines 651-656): the body is pushMatrix(); translate(x, y);
draw(shape); popMatrix() in that order; the result pairs the final renderer
state with the trace of the calls the body makes. -/
def drawPathAt (shape : OfPath) (x y : ℚ) (s : RendererState) :
    RendererState × List RendererCall :=
  let s1 := pushMatrix s
  let s2 := translateXYZ x y 0 s1
  let r3 := drawPathConst shape s2
  let s4 := popMatrix r3.1
  (s4, RendererCall.pushMatrixCall :: RendererCall.translateCall x y 0 ::
        (r3.2 ++ [RendererCall.popMatrixCall]))

/-- Claim C3: the inherited default draw(shape, x, y) performs exactly
pushMatrix; translate(x, y); draw(shape); popMatrix in that order, and after
it returns the renderer state, in particular the matrix-stack depth and the
current matrix, equals its value before the call: no renderer state is
mutated except through that explicit push/pop pair. -/
theorem drawPathAt_exact_trace_and_state (shape : OfPath) (x y : ℚ)
    (s : RendererState) :
    (drawPathAt shape x y s).1 = s ∧
    (drawPathAt shape x y s).2 =
      [RendererCall.pushMatrixCall, RendererCall.translateCall x y 0,
       RendererCall.drawPathCall shape, RendererCall.popMatrixCall] := by
  constructor
  · simp [drawPathAt, drawPathConst, pushMatrix, translateXYZ, popMatrix]
  · simp [drawPathAt, drawPathConst]

/-- One operation on the renderer's matrix stack: pushMatrix, popMatrix, or
any of the transform calls (translate, scale, rotate, multMatrix), all of
which only compose a matrix onto the current top of stack. -/
inductive MatrixOp where
  | push
  | pop
  | transform (m : Mat4)

/-- Modelled from the spec: the effect of one matrix-stack operation on the
renderer state (sections 3 and 4.1 of the spec). -/
def applyMatrixOp (s : RendererState) : MatrixOp → RendererState
  | MatrixOp.push => pushMatrix s
  | MatrixOp.pop => popMatrix s
  | MatrixOp.transform m => { s with currentMatrix := s.currentMatrix * m }

/-- Run a sequence of matrix-stack operations left to right. -/
def runMatrixOps (s : RendererState) : List MatrixOp → RendererState
  | [] => s
  | op :: ops => runMatrixOps (applyMatrixOp s op) ops

/-- Correctly bracketed sequences of matrix-stack operations: transforms are
free, and every push is matched by a pop with a correctly bracketed sequence
between them. -/
inductive BalancedOps : List MatrixOp → Prop where
  | nil : BalancedOps []
  | step (m : Mat4) {ops : List MatrixOp} :
      BalancedOps ops → BalancedOps (MatrixOp.transform m :: ops)
  | bracket {inner rest : List MatrixOp} :
      BalancedOps inner → BalancedOps rest →
      BalancedOps (MatrixOp.push :: (inner ++ MatrixOp.pop :: rest))

theorem runMatrixOps_append (l1 l2 : List MatrixOp) (s : RendererState) :
    runMatrixOps s (l1 ++ l2) = runMatrixOps (runMatrixOps s l1) l2 := by
  induction l1 generalizing s with
  | nil => rfl
  | cons op ops ih => simp [runMatrixOps, ih]

theorem applyMatrixOp_styleStack (s : RendererState) (op : MatrixOp) :
    (applyMatrixOp s op).styleStack = s.styleStack := by
  cases op with
  | push => rfl
  | pop =>
      simp only [applyMatrixOp, popMatrix]
      cases s.matrixStack <;> rfl
  | transform m => rfl

theorem applyMatrixOp_viewportStack (s : RendererState) (op : MatrixOp) :
    (applyMatrixOp s op).viewportStack = s.viewportStack := by
  cases op with
  | push => rfl
  | pop =>
      simp only [applyMatrixOp, popMatrix]
      cases s.matrixStack <;> rfl
  | transform m => rfl

theorem runMatrixOps_styleStack (ops : List MatrixOp) (s : RendererState) :
    (runMatrixOps s ops).styleStack = s.styleStack := by
  induction ops generalizing s with
  | nil => rfl
  | cons op rest ih =>
      simp [runMatrixOps, ih, applyMatrixOp_styleStack]

theorem runMatrixOps_viewportStack (ops : List MatrixOp) (s : RendererState) :
    (runMatrixOps s ops).viewportStack = s.viewportStack := by
  induction ops generalizing s with
  | nil => rfl
  | cons op rest ih =>
      simp [runMatrixOps, ih, applyMatrixOp_viewportStack]

theorem runMatrixOps_balanced_matrixStack {ops : List MatrixOp}
    (h : BalancedOps ops) : ∀ s : RendererState,
    (runMatrixOps s ops).matrixStack = s.matrixStack := by
  induction h with
  | nil => intro s; rfl
  | step m h ih =>
      intro s
      simp [runMatrixOps, applyMatrixOp, ih]
  | bracket hinner hrest ihinner ihrest =>
      intro s
      simp only [runMatrixOps, applyMatrixOp]
      rw [runMatrixOps_append]
      simp only [runMatrixOps, applyMatrixOp]
      rw [ihrest, popMatrix, ihinner (pushMatrix s)]
      simp [pushMatrix]

theorem runMatrixOps_bracket_restores {inner : List MatrixOp}
    (hinner : BalancedOps inner) (s : RendererState) :
    runMatrixOps s (MatrixOp.push :: (inner ++ [MatrixOp.pop])) = s := by
  simp only [runMatrixOps, applyMatrixOp]
  rw [runMatrixOps_append]
  simp only [runMatrixOps, applyMatrixOp]
  have hstack := runMatrixOps_balanced_matrixStack hinner (pushMatrix s)
  have hstyle := runMatrixOps_styleStack inner (pushMatrix s)
  have hview := runMatrixOps_viewportStack inner (pushMatrix s)
  rw [popMatrix, hstack]
  simp only [pushMatrix] at hstyle hview ⊢
  cases s with
  | mk cur stack style view =>
      simp only at hstyle hview
      simp [hstyle, hview]

/-- Claim C5: for every correctly bracketed sequence of pushMatrix/popMatrix
calls with arbitrary transform calls between them, the matrix-stack depth
after the sequence equals the depth before it; and each popMatrix restores
the current matrix to its value at the matching pushMatrix: running a matched
push ... pop bracket with a balanced interior leaves the renderer state
exactly as it was, so the remainder runs from the pre-bracket state. -/
theorem balanced_preserves_depth_and_pop_restores
    (ops inner rest : List MatrixOp) (hops : BalancedOps ops)
    (hinner : BalancedOps inner) (s : RendererState) :
    (runMatrixOps s ops).matrixStack.length = s.matrixStack.length ∧
    runMatrixOps s (MatrixOp.push :: (inner ++ MatrixOp.pop :: rest)) =
      runMatrixOps s rest := by
  constructor
  · rw [runMatrixOps_balanced_matrixStack hops]
  · have : MatrixOp.push :: (inner ++ MatrixOp.pop :: rest) =
        (MatrixOp.push :: (inner ++ [MatrixOp.pop])) ++ rest := by
      simp
    rw [this, runMatrixOps_append, runMatrixOps_bracket_restores hinner]

/-- A concrete initial renderer state: identity current matrix, empty stacks. -/
def initRenderer : RendererState :=
  { currentMatrix := 1, matrixStack := [], styleStack := [], viewportStack := [] }

/-- Witness for claim C5 at a concrete input: the bracketed sequence
push; translate(3, 4); pop run from the initial renderer state. -/
theorem balanced_preserves_depth_and_pop_restores_witness :
    (runMatrixOps initRenderer
        [MatrixOp.push, MatrixOp.transform (translationMatrix 3 4 0),
         MatrixOp.pop]).matrixStack.length = initRenderer.matrixStack.length ∧
    runMatrixOps initRenderer
        (MatrixOp.push ::
          ([MatrixOp.transform (translationMatrix 3 4 0)] ++
            MatrixOp.pop :: [])) =
      runMatrixOps initRenderer [] :=
  balanced_preserves_depth_and_pop_restores
    (MatrixOp.push ::
      ([MatrixOp.transform (translationMatrix 3 4 0)] ++ MatrixOp.pop :: []))
    [MatrixOp.transform (translationMatrix 3 4 0)] []
    (BalancedOps.bracket (BalancedOps.step _ BalancedOps.nil) BalancedOps.nil)
    (BalancedOps.step _ BalancedOps.nil) initRenderer

/-- Model of ofLoopType: the video loop modes. -/
inductive OfLoopType where
  | OF_LOOP_NONE
  | OF_LOOP_PALINDROME
  | OF_LOOP_NORMAL
deriving DecidableEq

/-- Modelled from the spec: the transport state an ofBaseVideoPlayer instance
owns (spec section 3): loaded-path identity (a numeric resource id here),
normalized playhead position, playing and paused flags, loop mode, signed
playback speed, volume, total frame count, and the movie-done condition. -/
structure VideoPlayerState where
  loaded : Bool
  playing : Bool
  paused : Bool
  position : ℚ
  totalFrames : ℕ
  speed : ℚ
  volume : ℚ
  loopState : OfLoopType
  movieDone : Bool
  moviePath : ℕ
deriving DecidableEq

/-- The freshly constructed, unloaded player. -/
def initPlayer : VideoPlayerState :=
  { loaded := false, playing := false, paused := false, position := 0,
    totalFrames := 0, speed := 1, volume := 1,
    loopState := OfLoopType.OF_LOOP_NONE, movieDone := false, moviePath := 0 }

/-- Clamp a rational into the unit interval. -/
def clamp01 (q : ℚ) : ℚ := min 1 (max 0 q)

theorem clamp01_nonneg (q : ℚ) : 0 ≤ clamp01 q := by
  simp [clamp01]

theorem clamp01_le_one (q : ℚ) : clamp01 q ≤ 1 := by
  simp [clamp01]

/-- Modelled from the spec: ofBaseVideoPlayer::load is pure virtual in the
header (line 462); per spec section 4.3 it moves Unloaded to Loaded
synchronously and returns success or failure; on success the player is loaded
and paused with the playhead at the first frame (spec section 8: position 0.0,
not playing); on failure the state is left Unloaded. The backend outcome and
the loaded video's frame count are parameters of the model. -/
def load (ok : Bool) (name : ℕ) (frames : ℕ) (s : VideoPlayerState) :
    VideoPlayerState :=
  if ok then
    { s with loaded := true, playing := false, paused := true, position := 0,
             totalFrames := frames, movieDone := false, moviePath := name }
  else
    { initPlayer with speed := s.speed, volume := s.volume,
                      loopState := s.loopState }

/-- Modelled from the spec: play moves Loaded(any) to Loaded(Playing), a safe
no-op when nothing is loaded (spec section 4.3 failure model). -/
def play (s : VideoPlayerState) : VideoPlayerState :=
  if s.loaded then { s with playing := true, paused := false, movieDone := false }
  else s

/-- Modelled from the spec: setPaused pauses or resumes a loaded player,
preserving the playhead position (header line 547, spec section 4.3). -/
def setPaused (bPause : Bool) (s : VideoPlayerState) : VideoPlayerState :=
  if s.loaded then { s with paused := bPause, playing := !bPause } else s

/-- Modelled from the spec: stop is pure virtual in the header (line 480,
doc: pause and reset the playhead position to the first frame); per spec
section 4.3 it moves Loaded(any) to Loaded(Paused) with position reset to
frame 0, a reset and not an unload; safe no-op when nothing is loaded. -/
def stop (s : VideoPlayerState) : VideoPlayerState :=
  if s.loaded then { s with playing := false, paused := true, position := 0 }
  else s

/-- Modelled from the spec: setPosition takes a normalized position between
0.0 and 1.0 (header lines 548-555); seeking past a boundary clamps
(spec section 4.3), so the stored playhead is the clamped percentage. -/
def setPosition (pct : ℚ) (s : VideoPlayerState) : VideoPlayerState :=
  if s.loaded then { s with position := clamp01 pct } else s

/-- Modelled from the spec: setVolume takes a normalized volume between
0.0 and 1.0 (header lines 556-563). -/
def setVolume (volume : ℚ) (s : VideoPlayerState) : VideoPlayerState :=
  { s with volume := clamp01 volume }

/-- Modelled from the spec: setSpeed stores the signed playback speed
(header lines 568-583), a pure parameter mutation. -/
def setSpeed (speed : ℚ) (s : VideoPlayerState) : VideoPlayerState :=
  { s with speed := speed }

/-- Modelled from the spec: setLoopState stores the loop mode (header line
567), a pure parameter mutation. -/
def setLoopState (state : OfLoopType) (s : VideoPlayerState) : VideoPlayerState :=
  { s with loopState := state }

/-- Normalized position of frame f: frame 0 is position 0 and frame
totalFrames - 1 is position 1 (header lines 584-591). -/
def frameToPct (s : VideoPlayerState) (f : ℤ) : ℚ :=
  if s.totalFrames ≤ 1 then 0 else (f : ℚ) / ((s.totalFrames : ℚ) - 1)

/-- Modelled from the spec: setFrame is setPosition by frame number (header
lines 584-591), with out-of-range frames clamped to the valid range. -/
def setFrame (f : ℤ) (s : VideoPlayerState) : VideoPlayerState :=
  if s.loaded then { s with position := clamp01 (frameToPct s f) } else s

/-- The normalized distance between two consecutive frames. -/
def frameStep (s : VideoPlayerState) : ℚ :=
  if s.totalFrames ≤ 1 then 0 else 1 / ((s.totalFrames : ℚ) - 1)

/-- Modelled from the spec: nextFrame advances the playhead forward one frame
without changing play/pause state (header lines 607-611); a manual seek past
the end clamps (spec section 4.3). -/
def nextFrame (s : VideoPlayerState) : VideoPlayerState :=
  if s.loaded then { s with position := clamp01 (s.position + frameStep s) }
  else s

/-- Modelled from the spec: previousFrame moves the playhead backward one
frame without changing play/pause state (header lines 612-616). -/
def previousFrame (s : VideoPlayerState) : VideoPlayerState :=
  if s.loaded then { s with position := clamp01 (s.position - frameStep s) }
  else s

/-- Modelled from the spec: firstFrame resets the playhead to the first frame,
functionally equivalent to setPosition(0.0) (header lines 603-606). -/
def firstFrame (s : VideoPlayerState) : VideoPlayerState :=
  if s.loaded then { s with position := 0 } else s

/-- Modelled from the spec: how playback advancement moves the normalized
playhead by a signed delta under each loop mode (spec section 4.3 looping
semantics): OF_LOOP_NONE halts at the boundary (clamp), OF_LOOP_NORMAL wraps
end to start (fractional part), OF_LOOP_PALINDROME reflects at each boundary
(triangle wave). -/
def advancePosition (loop : OfLoopType) (p d : ℚ) : ℚ :=
  match loop with
  | OfLoopType.OF_LOOP_NONE => clamp01 (p + d)
  | OfLoopType.OF_LOOP_NORMAL => Int.fract (p + d)
  | OfLoopType.OF_LOOP_PALINDROME =>
      let t := 2 * Int.fract ((p + d) / 2)
      if t ≤ 1 then t else 2 - t

/-- Modelled from the spec: one update cycle of a playing loaded player
advances the playhead by speed times the elapsed normalized time, per the
loop mode; under OF_LOOP_NONE, advancement past a boundary marks the movie
done (spec section 4.3). -/
def update (dt : ℚ) (s : VideoPlayerState) : VideoPlayerState :=
  if s.loaded && s.playing then
    { s with
      position := advancePosition s.loopState s.position (s.speed * dt),
      movieDone := s.movieDone ||
        (decide (s.loopState = OfLoopType.OF_LOOP_NONE) &&
          (decide (s.position + s.speed * dt < 0) ||
           decide (1 < s.position + s.speed * dt))) }
  else s

/-- Modelled from the spec: close (on the underlying video-source contract,
header line 347) releases the resource and returns the player to Unloaded,
keeping only the user-set parameters. -/
def close (s : VideoPlayerState) : VideoPlayerState :=
  { initPlayer with speed := s.speed, volume := s.volume,
                    loopState := s.loopState }

/-- Model of ofBaseVideoPlayer::isLoaded, pure virtual (header line 507):
true exactly when a video is loaded. -/
def isLoaded (s : VideoPlayerState) : Bool := s.loaded

/-- Model of the inherited default ofBaseVideoPlayer::isInitialized (header
line 518): its body is return isLoaded(). -/
def isInitialized (s : VideoPlayerState) : Bool := isLoaded s

/-- Modelled from the spec: getPosition returns the normalized playhead
position (its body lives outside this header; header lines 520-527). -/
def getPosition (s : VideoPlayerState) : ℚ := s.position

/-- Model of ofBaseVideoPlayer::isPlaying, pure virtual (header line 510). -/
def isPlaying (s : VideoPlayerState) : Bool := s.playing

/-- Model of ofBaseVideoPlayer::isPaused, pure virtual (header line 499). -/
def isPaused (s : VideoPlayerState) : Bool := s.paused

/-- One operation of the video player interface, with backend-chosen data
(load outcome and frame count, update timing) as constructor arguments. -/
inductive PlayerOp where
  | load (ok : Bool) (name : ℕ) (frames : ℕ)
  | play
  | setPaused (bPause : Bool)
  | stop
  | setPosition (pct : ℚ)
  | setFrame (f : ℤ)
  | nextFrame
  | previousFrame
  | firstFrame
  | setSpeed (speed : ℚ)
  | setVolume (volume : ℚ)
  | setLoopState (state : OfLoopType)
  | update (dt : ℚ)
  | close
deriving DecidableEq

/-- Apply one player operation to the transport state. -/
def applyPlayerOp (s : VideoPlayerState) : PlayerOp → VideoPlayerState
  | PlayerOp.load ok name frames => load ok name frames s
  | PlayerOp.play => play s
  | PlayerOp.setPaused b => setPaused b s
  | PlayerOp.stop => stop s
  | PlayerOp.setPosition pct => setPosition pct s
  | PlayerOp.setFrame f => setFrame f s
  | PlayerOp.nextFrame => nextFrame s
  | PlayerOp.previousFrame => previousFrame s
  | PlayerOp.firstFrame => firstFrame s
  | PlayerOp.setSpeed sp => setSpeed sp s
  | PlayerOp.setVolume v => setVolume v s
  | PlayerOp.setLoopState l => setLoopState l s
  | PlayerOp.update dt => update dt s
  | PlayerOp.close => close s

/-- Run a sequence of player operations left to right. -/
def runPlayer (s : VideoPlayerState) : List PlayerOp → VideoPlayerState
  | [] => s
  | op :: ops => runPlayer (applyPlayerOp s op) ops

/-- Transport operations: everything except load and close, that is the
seek, frame, speed, volume, loop-mode, play/pause/stop and playback
advancement operations. -/
def isTransportOp : PlayerOp → Bool
  | PlayerOp.load _ _ _ => false
  | PlayerOp.close => false
  | _ => true

theorem applyPlayerOp_transport_loaded (s : VideoPlayerState) (op : PlayerOp)
    (h : isTransportOp op = true) :
    (applyPlayerOp s op).loaded = s.loaded := by
  cases op with
  | load ok name frames => simp [isTransportOp] at h
  | close => simp [isTransportOp] at h
  | play => simp only [applyPlayerOp, play]; split <;> rfl
  | setPaused b => simp only [applyPlayerOp, setPaused]; split <;> rfl
  | stop => simp only [applyPlayerOp, stop]; split <;> rfl
  | setPosition pct => simp only [applyPlayerOp, setPosition]; split <;> rfl
  | setFrame f => simp only [applyPlayerOp, setFrame]; split <;> rfl
  | nextFrame => simp only [applyPlayerOp, nextFrame]; split <;> rfl
  | previousFrame => simp only [applyPlayerOp, previousFrame]; split <;> rfl
  | firstFrame => simp only [applyPlayerOp, firstFrame]; split <;> rfl
  | setSpeed sp => rfl
  | setVolume v => rfl
  | setLoopState l => rfl
  | update dt => simp only [applyPlayerOp, update]; split <;> rfl

theorem runPlayer_transport_loaded (ops : List PlayerOp) (s : VideoPlayerState)
    (h : ops.all isTransportOp = true) :
    (runPlayer s ops).loaded = s.loaded := by
  induction ops generalizing s with
  | nil => rfl
  | cons op rest ih =>
      rw [List.all_cons, Bool.and_eq_true] at h
      rw [runPlayer, ih _ h.2, applyPlayerOp_transport_loaded s op h.1]

/-- Claim C4: for every loaded video player, play() followed by stop(), with
any sequence of transport operations (seeks, frame steps, speed, volume,
loop-mode changes, pause toggles, playback advancement) in between, leaves
getPosition() at 0, isPlaying() false, and the player still loaded: stop is a
reset to the first frame into the paused state, not an unload. -/
theorem play_then_stop_resets (s : VideoPlayerState) (mid : List PlayerOp)
    (hl : s.loaded = true) (hmid : mid.all isTransportOp = true) :
    getPosition (stop (runPlayer (play s) mid)) = 0 ∧
    isPlaying (stop (runPlayer (play s) mid)) = false ∧
    isLoaded (stop (runPlayer (play s) mid)) = true := by
  have hplay : (play s).loaded = true := by simp [play, hl]
  have hmidl : (runPlayer (play s) mid).loaded = true := by
    rw [runPlayer_transport_loaded mid _ hmid, hplay]
  simp [stop, hmidl, getPosition, isPlaying, isLoaded]

/-- A concrete loaded player: resource id 7, 100 frames. -/
def loadedSample : VideoPlayerState := load true 7 100 initPlayer

/-- Witness for claim C4 at a concrete input: a loaded player, with a seek to
the middle and one update cycle between play() and stop(). -/
theorem play_then_stop_resets_witness :
    getPosition (stop (runPlayer (play loadedSample)
        [PlayerOp.setPosition (1/2), PlayerOp.update 1])) = 0 ∧
    isPlaying (stop (runPlayer (play loadedSample)
        [PlayerOp.setPosition (1/2), PlayerOp.update 1])) = false ∧
    isLoaded (stop (runPlayer (play loadedSample)
        [PlayerOp.setPosition (1/2), PlayerOp.update 1])) = true :=
  play_then_stop_resets loadedSample
    [PlayerOp.setPosition (1/2), PlayerOp.update 1] rfl rfl

/-- Claim C7: a video player that keeps the default isInitialized() returns
exactly the value of isLoaded(); in particular load failing from the unloaded
state leaves both false, and load succeeding leaves both true. -/
theorem isInitialized_agrees_with_isLoaded (s : VideoPlayerState)
    (name frames : ℕ) :
    isInitialized s = isLoaded s ∧
    isLoaded (load false name frames initPlayer) = false ∧
    isInitialized (load false name frames initPlayer) = false ∧
    isLoaded (load true name frames initPlayer) = true ∧
    isInitialized (load true name frames initPlayer) = true := by
  refine ⟨rfl, ?_, ?_, ?_, ?_⟩ <;> simp [load, isLoaded, isInitialized, initPlayer]

/-- Opaque model of ofTexture. -/
structure OfTexture where
  textureID : ℕ
deriving DecidableEq

/-- Model of the state of an ofBaseVideoGrabber backend. -/
structure VideoGrabberState where
  initialized : Bool
  width : ℚ
  height : ℚ
  deviceID : ℤ
  desiredFrameRate : ℤ
deriving DecidableEq

/-- Model of the inherited default ofBaseVideoGrabber::getTexturePtr (header
lines 411-417): the body is return nullptr, for every grabber state; the null
pointer is the none case of an ordinary Option return value, there is no
error or thrown control flow in the body. -/
def grabberGetTexturePtr (_g : VideoGrabberState) : Option OfTexture := none

/-- Model of the inherited default ofBaseVideoPlayer::getTexturePtr (header
lines 481-488): the body is return nullptr, for every player state; the null
pointer is the none case of an ordinary Option return value, there is no
error or thrown control flow in the body. -/
def playerGetTexturePtr (_s : VideoPlayerState) : Option OfTexture := none

/-- Claim C8: for every video grabber state and every video player state, in
particular every player state reachable by any operation sequence, the
inherited default getTexturePtr returns the null-pointer sentinel none, as an
ordinary return value of type Option rather than an error or thrown control
flow. -/
theorem getTexturePtr_default_null (g : VideoGrabberState)
    (s : VideoPlayerState) (ops : List PlayerOp) :
    grabberGetTexturePtr g = none ∧ playerGetTexturePtr s = none ∧
    playerGetTexturePtr (runPlayer initPlayer ops) = none :=
  ⟨rfl, rfl, rfl⟩

/-- Position invariant: the normalized playhead lies in the unit interval. -/
def positionInRange (s : VideoPlayerState) : Prop :=
  0 ≤ s.position ∧ s.position ≤ 1

theorem advancePosition_mem (loop : OfLoopType) (p d : ℚ) :
    0 ≤ advancePosition loop p d ∧ advancePosition loop p d ≤ 1 := by
  cases loop with
  | OF_LOOP_NONE => exact ⟨clamp01_nonneg _, clamp01_le_one _⟩
  | OF_LOOP_NORMAL =>
      exact ⟨Int.fract_nonneg _, le_of_lt (Int.fract_lt_one _)⟩
  | OF_LOOP_PALINDROME =>
      have h0 : (0:ℚ) ≤ 2 * Int.fract ((p + d) / 2) :=
        mul_nonneg (by norm_num) (Int.fract_nonneg _)
      have h2 : 2 * Int.fract ((p + d) / 2) < 2 := by
        have h := Int.fract_lt_one ((p + d) / 2)
        linarith
      simp only [advancePosition]
      by_cases hle : 2 * Int.fract ((p + d) / 2) ≤ 1
      · rw [if_pos hle]; exact ⟨h0, hle⟩
      · rw [if_neg hle]
        push_neg at hle
        constructor <;> linarith

theorem applyPlayerOp_positionInRange (s : VideoPlayerState) (op : PlayerOp)
    (h : positionInRange s) : positionInRange (applyPlayerOp s op) := by
  obtain ⟨h0, h1⟩ := h
  cases op with
  | load ok name frames =>
      simp only [applyPlayerOp, load]
      split
      · exact ⟨le_refl 0, zero_le_one⟩
      · exact ⟨le_refl 0, zero_le_one⟩
  | play =>
      simp only [applyPlayerOp, play]
      split
      · exact ⟨h0, h1⟩
      · exact ⟨h0, h1⟩
  | setPaused b =>
      simp only [applyPlayerOp, setPaused]
      split
      · exact ⟨h0, h1⟩
      · exact ⟨h0, h1⟩
  | stop =>
      simp only [applyPlayerOp, stop]
      split
      · exact ⟨le_refl 0, zero_le_one⟩
      · exact ⟨h0, h1⟩
  | setPosition pct =>
      simp only [applyPlayerOp, setPosition]
      split
      · exact ⟨clamp01_nonneg _, clamp01_le_one _⟩
      · exact ⟨h0, h1⟩
  | setFrame f =>
      simp only [applyPlayerOp, setFrame]
      split
      · exact ⟨clamp01_nonneg _, clamp01_le_one _⟩
      · exact ⟨h0, h1⟩
  | nextFrame =>
      simp only [applyPlayerOp, nextFrame]
      split
      · exact ⟨clamp01_nonneg _, clamp01_le_one _⟩
      · exact ⟨h0, h1⟩
  | previousFrame =>
      simp only [applyPlayerOp, previousFrame]
      split
      · exact ⟨clamp01_nonneg _, clamp01_le_one _⟩
      · exact ⟨h0, h1⟩
  | firstFrame =>
      simp only [applyPlayerOp, firstFrame]
      split
      · exact ⟨le_refl 0, zero_le_one⟩
      · exact ⟨h0, h1⟩
  | setSpeed sp => exact ⟨h0, h1⟩
  | setVolume v => exact ⟨h0, h1⟩
  | setLoopState l => exact ⟨h0, h1⟩
  | update dt =>
      simp only [applyPlayerOp, update]
      split
      · exact advancePosition_mem _ _ _
      · exact ⟨h0, h1⟩
  | close => exact ⟨le_refl 0, zero_le_one⟩

theorem runPlayer_positionInRange (ops : List PlayerOp) (s : VideoPlayerState)
    (h : positionInRange s) : positionInRange (runPlayer s ops) := by
  induction ops generalizing s with
  | nil => exact h
  | cons op rest ih => exact ih _ (applyPlayerOp_positionInRange s op h)

/-- Claim C9: in every player state reachable from the fresh player by any
sequence of load, play, pause, stop, seek, frame, speed, volume, loop-mode,
update and close operations, getPosition() returns a value p with
0 ≤ p ≤ 1. -/
theorem getPosition_in_unit_interval (ops : List PlayerOp) :
    0 ≤ getPosition (runPlayer initPlayer ops) ∧
    getPosition (runPlayer initPlayer ops) ≤ 1 :=
  runPlayer_positionInRange ops initPlayer ⟨le_refl 0, zero_le_one⟩

/-- Argument record received by ofBaseRenderer::setupScreenPerspective. -/
structure PerspectiveArgs where
  width : ℚ
  height : ℚ
  fov : ℚ
  nearDist : ℚ
  farDist : ℚ
deriving DecidableEq

/-- Argument record received by ofBaseRenderer::setupScreenOrtho. -/
structure OrthoArgs where
  width : ℚ
  height : ℚ
  nearDist : ℚ
  farDist : ℚ
deriving DecidableEq

/-- Model of the declared signature of ofBaseRenderer::setupScreenPerspective
(header line 768): default arguments width = -1, height = -1, fov = 60,
nearDist = 0, farDist = 0; as in C++ default-argument substitution, an
omitted call-site argument (none) is filled with the declared default. -/
def setupScreenPerspectiveArgs
    (width height fov nearDist farDist : Option ℚ) : PerspectiveArgs :=
  { width := width.getD (-1), height := height.getD (-1), fov := fov.getD 60,
    nearDist := nearDist.getD 0, farDist := farDist.getD 0 }

/-- Model of the declared signature of ofBaseRenderer::setupScreenOrtho
(header line 780): default arguments width = -1, height = -1, nearDist = -1,
farDist = 1; an omitted call-site argument (none) is filled with the declared
default. -/
def setupScreenOrthoArgs
    (width height nearDist farDist : Option ℚ) : OrthoArgs :=
  { width := width.getD (-1), height := height.getD (-1),
    nearDist := nearDist.getD (-1), farDist := farDist.getD 1 }

/-- Sentinel test from the header comment (lines 747-749): a nearDist or
farDist of 0 means use the implementation default derived from the viewport
dimensions. -/
def isDefaultNearFarSentinel (q : ℚ) : Bool := decide (q = 0)

/-- Claim C10: a no-argument setupScreenPerspective() call passes
nearDist = 0 and farDist = 0, which is the use-the-implementation-default
sentinel, whereas a no-argument setupScreenOrtho() call passes nearDist = -1
and farDist = 1, literal clip distances that are not that sentinel. -/
theorem setupScreen_default_near_far :
    (setupScreenPerspectiveArgs none none none none none).nearDist = 0 ∧
    (setupScreenPerspectiveArgs none none none none none).farDist = 0 ∧
    isDefaultNearFarSentinel
      (setupScreenPerspectiveArgs none none none none none).nearDist = true ∧
    isDefaultNearFarSentinel
      (setupScreenPerspectiveArgs none none none none none).farDist = true ∧
    (setupScreenOrthoArgs none none none none).nearDist = -1 ∧
    (setupScreenOrthoArgs none none none none).farDist = 1 ∧
    isDefaultNearFarSentinel
      (setupScreenOrthoArgs none none none none).nearDist = false ∧
    isDefaultNearFarSentinel
      (setupScreenOrthoArgs none none none none).farDist = false := by
  refine ⟨rfl, rfl, ?_, ?_, rfl, rfl, ?_, ?_⟩ <;> decide
